import Mathlib

/-!
Verification of the lease-vs-buy calculator.

Shallow embedding of the financial core of the repository: the pure
calculation functions of src/calc.py, the linear-depreciation helper and
the month-by-month projection loop of src/app.py.  Python floats are
modelled as exact rationals, Python ints as integers; Python exponentiation
with a positive integer exponent becomes natural-number power.
-/

namespace LeaseVsBuy

/-- Embedding of monthly_loan_payment from src/calc.py (lines 1-7). -/
def monthly_loan_payment (loan_amount apr_percent : ℚ) (term_months : ℤ) : ℚ :=
  if term_months ≤ 0 ∨ loan_amount ≤ 0 then 0
  else
    let r := apr_percent / 100 / 12
    if r = 0 then loan_amount / (term_months : ℚ)
    else loan_amount * (r * (1 + r) ^ term_months.toNat) / ((1 + r) ^ term_months.toNat - 1)

/-- Embedding of remaining_loan_balance from src/calc.py (lines 10-20). -/
def remaining_loan_balance (loan_amount apr_percent : ℚ) (term_months months_elapsed : ℤ) : ℚ :=
  let k := max 0 (min months_elapsed term_months)
  if term_months ≤ 0 ∨ loan_amount ≤ 0 then 0
  else
    let r := apr_percent / 100 / 12
    let payment := monthly_loan_payment loan_amount apr_percent term_months
    if r = 0 then max 0 (loan_amount - payment * (k : ℚ))
    else
      let factor := (1 + r) ^ k.toNat
      max 0 (loan_amount * factor - payment * (factor - 1) / r)

/-- Embedding of lease_payment_from_mf from src/calc.py (lines 23-28). -/
def lease_payment_from_mf (cap_cost residual_value money_factor : ℚ) (term_months : ℤ) : ℚ :=
  if term_months ≤ 0 ∨ cap_cost ≤ 0 then 0
  else
    let depreciation_fee := (cap_cost - residual_value) / (term_months : ℚ)
    let finance_fee := (cap_cost + residual_value) * money_factor
    depreciation_fee + finance_fee

/-- Embedding of apr_to_money_factor from src/calc.py (lines 31-32). -/
def apr_to_money_factor (apr_percent : ℚ) : ℚ :=
  apr_percent / 2400

/-- Embedding of linear_depreciation_value from src/app.py (lines 17-29). -/
def linear_depreciation_value (initial_value end_value : ℚ) (horizon_months month : ℤ) : ℚ :=
  if horizon_months ≤ 0 then end_value
  else
    let m := max 0 month
    let slope := (end_value - initial_value) / (horizon_months : ℚ)
    initial_value + slope * ((min m horizon_months : ℤ) : ℚ)

/-- Scenario parameters fed to the results section of main in src/app.py:
the validated inputs the projection loop reads.  lease_monthly_with_tax is
the monthly lease payment after either mode has produced it. -/
structure Scenario where
  purchase_price : ℚ
  buy_fees : ℚ
  tax_rate_global : ℚ
  down_payment_buy : ℚ
  loan_apr : ℚ
  loan_term_months : ℤ
  expected_value_pct : ℚ
  drive_off : ℚ
  lease_monthly_with_tax : ℚ
  lease_term_months : ℤ
  allowed_miles_per_year : ℚ
  expected_miles_per_year : ℚ
  excess_mileage_fee : ℚ
  disposition_fee : ℚ
  horizon_months : ℤ

/-- Buy-side derivations of main, src/app.py lines 594-599. -/
def taxable_amount (s : Scenario) : ℚ := s.purchase_price + s.buy_fees

def total_tax (s : Scenario) : ℚ := taxable_amount s * (s.tax_rate_global / 100)

def total_purchase_cost (s : Scenario) : ℚ := taxable_amount s + total_tax s

def loan_amount (s : Scenario) : ℚ := max (total_purchase_cost s - s.down_payment_buy) 0

def buy_monthly_payment (s : Scenario) : ℚ :=
  monthly_loan_payment (loan_amount s) s.loan_apr s.loan_term_months

/-- Expected value at end of horizon, src/app.py line 602. -/
def end_value_at_horizon (s : Scenario) : ℚ := s.purchase_price * (s.expected_value_pct / 100)

/-- Mileage-penalty derivations of main, src/app.py lines 614-618. -/
def lease_years (s : Scenario) : ℚ := (s.lease_term_months : ℚ) / 12

def total_allowed_miles (s : Scenario) : ℚ := s.allowed_miles_per_year * lease_years s

def total_expected_miles (s : Scenario) : ℚ := s.expected_miles_per_year * lease_years s

def excess_miles (s : Scenario) : ℚ := max 0 (total_expected_miles s - total_allowed_miles s)

def mileage_penalty (s : Scenario) : ℚ := excess_miles s * s.excess_mileage_fee

/-- Full-term lease totals of main, src/app.py lines 620-623. -/
def total_lease_payments_term (s : Scenario) : ℚ :=
  s.lease_monthly_with_tax * (s.lease_term_months : ℚ)

def net_cost_lease_full_term (s : Scenario) : ℚ :=
  s.drive_off + total_lease_payments_term s + mileage_penalty s + s.disposition_fee

/-- Buy-side body of the projection loop, src/app.py lines 632-640. -/
def net_cost_buy_at (s : Scenario) (m : ℤ) : ℚ :=
  let payments_made := buy_monthly_payment s * ((min m s.loan_term_months : ℤ) : ℚ)
  let remaining_bal := remaining_loan_balance (loan_amount s) s.loan_apr s.loan_term_months m
  let value_m :=
    linear_depreciation_value s.purchase_price (end_value_at_horizon s) s.horizon_months m
  s.down_payment_buy + payments_made + remaining_bal - value_m

/-- Lease-side body of the projection loop, src/app.py lines 643-650. -/
def net_cost_lease_at (s : Scenario) (m : ℤ) : ℚ :=
  if m ≤ s.lease_term_months then
    let lease_cost_m := s.drive_off + s.lease_monthly_with_tax * (m : ℚ)
    if m = s.lease_term_months then lease_cost_m + mileage_penalty s + s.disposition_fee
    else lease_cost_m
  else net_cost_lease_full_term s

/-- Buy-side net-cost series, src/app.py lines 627-641: one entry per month
1..horizon_months in chronological order. -/
def buy_net_cost_by_month (s : Scenario) : List ℚ :=
  (List.range s.horizon_months.toNat).map (fun (i : ℕ) => net_cost_buy_at s ((i : ℤ) + 1))

/-- Lease-side net-cost series, src/app.py lines 627-652. -/
def lease_net_cost_by_month (s : Scenario) : List ℚ :=
  (List.range s.horizon_months.toNat).map (fun (i : ℕ) => net_cost_lease_at s ((i : ℤ) + 1))

/-- Concrete scenario with expected mileage below the allowance, used to
instantiate the mileage-penalty theorem. -/
def mileage_example : Scenario where
  purchase_price := 30000
  buy_fees := 500
  tax_rate_global := 8
  down_payment_buy := 3000
  loan_apr := 5
  loan_term_months := 60
  expected_value_pct := 45
  drive_off := 2000
  lease_monthly_with_tax := 400
  lease_term_months := 36
  allowed_miles_per_year := 12000
  expected_miles_per_year := 10000
  excess_mileage_fee := 1/4
  disposition_fee := 350
  horizon_months := 48

/-- Concrete scenario used to instantiate the buy-side series theorem. -/
def buy_example : Scenario where
  purchase_price := 30000
  buy_fees := 500
  tax_rate_global := 8
  down_payment_buy := 3000
  loan_apr := 0
  loan_term_months := 60
  expected_value_pct := 45
  drive_off := 2000
  lease_monthly_with_tax := 400
  lease_term_months := 36
  allowed_miles_per_year := 12000
  expected_miles_per_year := 15000
  excess_mileage_fee := 1/4
  disposition_fee := 350
  horizon_months := 48

/-- Concrete scenario used to instantiate the lease-side series theorem:
lease term 3 months inside a 5 month horizon. -/
def lease_example : Scenario where
  purchase_price := 30000
  buy_fees := 500
  tax_rate_global := 8
  down_payment_buy := 3000
  loan_apr := 5
  loan_term_months := 60
  expected_value_pct := 45
  drive_off := 2000
  lease_monthly_with_tax := 400
  lease_term_months := 3
  allowed_miles_per_year := 12000
  expected_miles_per_year := 15000
  excess_mileage_fee := 1/4
  disposition_fee := 350
  horizon_months := 5

/-- Helper: the buy-side series entry at index m-1 is the loop body at
month m. -/
theorem buy_series_get (s : Scenario) (m : ℤ) (h1 : 1 ≤ m) (h2 : m ≤ s.horizon_months) :
    (buy_net_cost_by_month s)[(m - 1).toNat]? = some (net_cost_buy_at s m) := by
  have hidx : (m - 1).toNat < s.horizon_months.toNat := by omega
  have hm : (((m - 1).toNat : ℤ)) + 1 = m := by omega
  rw [buy_net_cost_by_month, List.getElem?_map, List.getElem?_range hidx,
    Option.map_some', hm]

/-- Helper: the lease-side series entry at index m-1 is the loop body at
month m. -/
theorem lease_series_get (s : Scenario) (m : ℤ) (h1 : 1 ≤ m) (h2 : m ≤ s.horizon_months) :
    (lease_net_cost_by_month s)[(m - 1).toNat]? = some (net_cost_lease_at s m) := by
  have hidx : (m - 1).toNat < s.horizon_months.toNat := by omega
  have hm : (((m - 1).toNat : ℤ)) + 1 = m := by omega
  rw [lease_net_cost_by_month, List.getElem?_map, List.getElem?_range hidx,
    Option.map_some', hm]

/-- C1: for every scenario and every month m in 1..horizon, the buy-side
net-cost series entry at month m equals downPayment plus
monthlyPayment*min(m, loanTermMonths) plus the remaining loan balance
(added, not subtracted) minus the depreciated value at month m. -/
theorem buy_series_entry (s : Scenario) (m : ℤ)
    (h1 : 1 ≤ m) (h2 : m ≤ s.horizon_months) :
    (buy_net_cost_by_month s)[(m - 1).toNat]? =
      some (s.down_payment_buy +
        buy_monthly_payment s * ((min m s.loan_term_months : ℤ) : ℚ) +
        remaining_loan_balance (loan_amount s) s.loan_apr s.loan_term_months m -
        linear_depreciation_value s.purchase_price (end_value_at_horizon s)
          s.horizon_months m) := by
  rw [buy_series_get s m h1 h2]
  rfl

/-- Witness for buy_series_entry at month 2 of a concrete scenario. -/
theorem buy_series_entry_app :
    (buy_net_cost_by_month buy_example)[((2 : ℤ) - 1).toNat]? =
      some (buy_example.down_payment_buy +
        buy_monthly_payment buy_example * ((min 2 buy_example.loan_term_months : ℤ) : ℚ) +
        remaining_loan_balance (loan_amount buy_example) buy_example.loan_apr
          buy_example.loan_term_months 2 -
        linear_depreciation_value buy_example.purchase_price
          (end_value_at_horizon buy_example) buy_example.horizon_months 2) :=
  buy_series_entry buy_example 2 (by norm_num) (by norm_num [buy_example])

/-- C2: the lease-side series entry at month m is driveOff plus m monthly
payments while m is below the lease term, picks up the mileage penalty and
disposition fee exactly at m = leaseTermMonths, and stays flat at that
full-term total for every later month up to the horizon. -/
theorem lease_series_entry (s : Scenario) (m : ℤ)
    (h1 : 1 ≤ m) (h2 : m ≤ s.horizon_months) :
    (m < s.lease_term_months →
      (lease_net_cost_by_month s)[(m - 1).toNat]? =
        some (s.drive_off + s.lease_monthly_with_tax * (m : ℚ))) ∧
    (m = s.lease_term_months →
      (lease_net_cost_by_month s)[(m - 1).toNat]? =
        some (s.drive_off + s.lease_monthly_with_tax * ((s.lease_term_months : ℤ) : ℚ) +
          mileage_penalty s + s.disposition_fee)) ∧
    (s.lease_term_months < m →
      (lease_net_cost_by_month s)[(m - 1).toNat]? =
        some (s.drive_off + s.lease_monthly_with_tax * ((s.lease_term_months : ℤ) : ℚ) +
          mileage_penalty s + s.disposition_fee)) := by
  refine ⟨fun h => ?_, fun h => ?_, fun h => ?_⟩
  · rw [lease_series_get s m h1 h2]
    simp [net_cost_lease_at, h.le, h.ne]
  · rw [lease_series_get s m h1 h2]
    subst h
    simp [net_cost_lease_at]
  · rw [lease_series_get s m h1 h2]
    rw [net_cost_lease_at, if_neg (not_le.mpr h)]
    rw [net_cost_lease_full_term, total_lease_payments_term]

/-- Witness for lease_series_entry before, at, and after the lease term
end of a concrete scenario with the horizon past the lease term. -/
theorem lease_series_entry_app :
    (lease_net_cost_by_month lease_example)[((2 : ℤ) - 1).toNat]? =
      some (lease_example.drive_off + lease_example.lease_monthly_with_tax * ((2 : ℤ) : ℚ)) ∧
    (lease_net_cost_by_month lease_example)[((3 : ℤ) - 1).toNat]? =
      some (lease_example.drive_off +
        lease_example.lease_monthly_with_tax * ((lease_example.lease_term_months : ℤ) : ℚ) +
        mileage_penalty lease_example + lease_example.disposition_fee) ∧
    (lease_net_cost_by_month lease_example)[((4 : ℤ) - 1).toNat]? =
      some (lease_example.drive_off +
        lease_example.lease_monthly_with_tax * ((lease_example.lease_term_months : ℤ) : ℚ) +
        mileage_penalty lease_example + lease_example.disposition_fee) :=
  ⟨(lease_series_entry lease_example 2 (by norm_num) (by norm_num [lease_example])).1
      (by norm_num [lease_example]),
   (lease_series_entry lease_example 3 (by norm_num) (by norm_num [lease_example])).2.1
      (by norm_num [lease_example]),
   (lease_series_entry lease_example 4 (by norm_num) (by norm_num [lease_example])).2.2
      (by norm_num [lease_example])⟩

/-- C3: monthly_loan_payment returns 0 whenever the term or the principal
is nonpositive; otherwise, with monthly rate r = apr/100/12, it returns
principal/termMonths when r = 0 and the annuity formula
principal * r(1+r)^n / ((1+r)^n - 1) when r > 0. -/
theorem monthly_payment_cases (p apr : ℚ) (n : ℤ) :
    ((n ≤ 0 ∨ p ≤ 0) → monthly_loan_payment p apr n = 0) ∧
    (0 < n → 0 < p → apr / 100 / 12 = 0 → monthly_loan_payment p apr n = p / (n : ℚ)) ∧
    (0 < n → 0 < p → 0 < apr / 100 / 12 →
      monthly_loan_payment p apr n =
        p * ((apr / 100 / 12) * (1 + apr / 100 / 12) ^ n.toNat) /
          ((1 + apr / 100 / 12) ^ n.toNat - 1)) := by
  refine ⟨fun h => ?_, fun hn hp hr => ?_, fun hn hp hr => ?_⟩
  · simp [monthly_loan_payment, h]
  · have hcond : ¬(n ≤ 0 ∨ p ≤ 0) := by push_neg; exact ⟨hn, hp⟩
    simp [monthly_loan_payment, hcond, hr]
  · have hcond : ¬(n ≤ 0 ∨ p ≤ 0) := by push_neg; exact ⟨hn, hp⟩
    simp [monthly_loan_payment, hcond, hr.ne']

/-- Witness for monthly_payment_cases at concrete inputs from the test
suite (zero principal, the zero-interest 12000/12 case, and a positive
rate). -/
theorem monthly_payment_cases_app :
    monthly_loan_payment 0 5 12 = 0 ∧
    monthly_loan_payment 12000 0 12 = 12000 / (((12 : ℤ) : ℚ)) ∧
    monthly_loan_payment 100 1200 2 =
      100 * ((1200 / 100 / 12) * (1 + 1200 / 100 / 12) ^ (2 : ℤ).toNat) /
        ((1 + 1200 / 100 / 12) ^ (2 : ℤ).toNat - 1) :=
  ⟨(monthly_payment_cases 0 5 12).1 (Or.inr le_rfl),
   (monthly_payment_cases 12000 0 12).2.1 (by norm_num) (by norm_num) (by norm_num),
   (monthly_payment_cases 100 1200 2).2.2 (by norm_num) (by norm_num) (by norm_num)⟩

/-- C5: lease_payment_from_mf returns 0 whenever the term or the cap cost
is nonpositive, and otherwise returns exactly
(capCost - residual)/termMonths + (capCost + residual)*moneyFactor. -/
theorem lease_payment_cases (cap res mf : ℚ) (n : ℤ) :
    ((n ≤ 0 ∨ cap ≤ 0) → lease_payment_from_mf cap res mf n = 0) ∧
    (0 < n → 0 < cap →
      lease_payment_from_mf cap res mf n = (cap - res) / (n : ℚ) + (cap + res) * mf) := by
  refine ⟨fun h => ?_, fun hn hcap => ?_⟩
  · simp [lease_payment_from_mf, h]
  · have hcond : ¬(n ≤ 0 ∨ cap ≤ 0) := by push_neg; exact ⟨hn, hcap⟩
    simp [lease_payment_from_mf, hcond]

/-- Witness for lease_payment_cases at the 30000/18000/0.001/36 inputs of
the test suite and at a degenerate zero term. -/
theorem lease_payment_cases_app :
    lease_payment_from_mf 30000 18000 (1/1000) 0 = 0 ∧
    lease_payment_from_mf 30000 18000 (1/1000) 36 =
      (30000 - 18000) / (((36 : ℤ) : ℚ)) + (30000 + 18000) * (1/1000) :=
  ⟨(lease_payment_cases 30000 18000 (1/1000) 0).1 (Or.inl le_rfl),
   (lease_payment_cases 30000 18000 (1/1000) 36).2 (by norm_num) (by norm_num)⟩

/-- C6: linear_depreciation_value returns endValue for a nonpositive
horizon; for a positive horizon it clamps the month into [0, horizon] and
interpolates linearly, so it is initialValue at month 0 and endValue at
month = horizon. -/
theorem depreciation_value_cases (v0 v1 : ℚ) (H month : ℤ) :
    (H ≤ 0 → linear_depreciation_value v0 v1 H month = v1) ∧
    (0 < H → linear_depreciation_value v0 v1 H month =
      v0 + (v1 - v0) * (((max 0 (min month H) : ℤ) : ℚ) / ((H : ℤ) : ℚ))) ∧
    (0 < H → linear_depreciation_value v0 v1 H 0 = v0) ∧
    (0 < H → linear_depreciation_value v0 v1 H H = v1) := by
  refine ⟨fun h => ?_, fun h => ?_, fun h => ?_, fun h => ?_⟩
  · simp [linear_depreciation_value, h]
  · have hclamp : min (max 0 month) H = max 0 (min month H) := by omega
    simp only [linear_depreciation_value, if_neg (not_le.mpr h), hclamp]
    ring
  · simp [linear_depreciation_value, not_le.mpr h, h.le]
  · have hH : ((H : ℤ) : ℚ) ≠ 0 := by exact_mod_cast h.ne'
    simp only [linear_depreciation_value, if_neg (not_le.mpr h), max_eq_right h.le,
      min_self]
    field_simp

/-- Witness for depreciation_value_cases, including a degenerate horizon. -/
theorem depreciation_value_cases_app :
    linear_depreciation_value 30000 13500 0 7 = 13500 ∧
    linear_depreciation_value 30000 13500 48 7 =
      30000 + (13500 - 30000) * (((max 0 (min 7 48) : ℤ) : ℚ) / (((48 : ℤ) : ℚ))) ∧
    linear_depreciation_value 30000 13500 48 0 = 30000 ∧
    linear_depreciation_value 30000 13500 48 48 = 13500 :=
  ⟨(depreciation_value_cases 30000 13500 0 7).1 le_rfl,
   (depreciation_value_cases 30000 13500 48 7).2.1 (by norm_num),
   (depreciation_value_cases 30000 13500 48 0).2.2.1 (by norm_num),
   (depreciation_value_cases 30000 13500 48 48).2.2.2 (by norm_num)⟩

/-- C9: apr_to_money_factor divides by 2400, and maps 2.4 to exactly
0.001. -/
theorem money_factor_conversion (apr : ℚ) :
    apr_to_money_factor apr = apr / 2400 ∧ apr_to_money_factor 2.4 = 0.001 := by
  exact ⟨rfl, by norm_num [apr_to_money_factor]⟩

/-- C10: before any month has elapsed (monthsElapsed ≤ 0, clamped to 0),
the remaining balance is exactly the full principal. -/
theorem remaining_balance_at_start (L apr : ℚ) (n me : ℤ)
    (hL : 0 < L) (hapr : 0 ≤ apr) (hn : 0 < n) (hme : me ≤ 0) :
    remaining_loan_balance L apr n me = L := by
  have hcond : ¬(n ≤ 0 ∨ L ≤ 0) := by push_neg; exact ⟨hn, hL⟩
  have hk : max 0 (min me n) = 0 := by omega
  by_cases hr : apr / 100 / 12 = 0
  · simp [remaining_loan_balance, hcond, hk, hr, max_eq_right hL.le]
  · simp [remaining_loan_balance, hcond, hk, hr, max_eq_right hL.le]

/-- Witness for remaining_balance_at_start on a 20000 at 5 percent, 60
month loan. -/
theorem remaining_balance_at_start_app :
    remaining_loan_balance 20000 5 60 0 = 20000 :=
  remaining_balance_at_start 20000 5 60 0 (by norm_num) (by norm_num) (by norm_num) le_rfl

/-- C7: the mileage penalty equals
max(0, expected*years - allowed*years) * feePerMile with years = term/12,
and is 0 whenever expected mileage does not exceed the allowance. -/
theorem mileage_penalty_cases (s : Scenario) (hterm : 0 ≤ s.lease_term_months) :
    mileage_penalty s =
      max 0 (s.expected_miles_per_year * ((s.lease_term_months : ℚ) / 12) -
        s.allowed_miles_per_year * ((s.lease_term_months : ℚ) / 12)) *
        s.excess_mileage_fee ∧
    (s.expected_miles_per_year ≤ s.allowed_miles_per_year → mileage_penalty s = 0) := by
  constructor
  · rfl
  · intro h
    have hy : (0 : ℚ) ≤ (s.lease_term_months : ℚ) / 12 := by
      have : (0 : ℚ) ≤ (s.lease_term_months : ℚ) := by exact_mod_cast hterm
      linarith
    have hmul : s.expected_miles_per_year * ((s.lease_term_months : ℚ) / 12) ≤
        s.allowed_miles_per_year * ((s.lease_term_months : ℚ) / 12) :=
      mul_le_mul_of_nonneg_right h hy
    unfold mileage_penalty excess_miles total_expected_miles total_allowed_miles lease_years
    rw [max_eq_left (by linarith), zero_mul]

/-- Witness for mileage_penalty_cases: no penalty when driving less than
allowed. -/
theorem mileage_penalty_cases_app : mileage_penalty mileage_example = 0 :=
  (mileage_penalty_cases mileage_example (by norm_num [mileage_example])).2
    (by norm_num [mileage_example])

/-- C8 fails as stated: with a residual value above the cap cost (the spec
notes this is not enforced) the lease payment is negative. -/
theorem lease_payment_negative_example : lease_payment_from_mf 1 100 0 1 < 0 := by
  norm_num [lease_payment_from_mf]

/-- C8 amended: for nonnegative cap cost, residual value and money factor
with residual ≤ cap cost, the lease payment is nonnegative for every
term. -/
theorem lease_payment_nonneg (cap res mf : ℚ) (n : ℤ)
    (hcap : 0 ≤ cap) (hres : 0 ≤ res) (hmf : 0 ≤ mf) (hrc : res ≤ cap) :
    0 ≤ lease_payment_from_mf cap res mf n := by
  unfold lease_payment_from_mf
  split
  · exact le_rfl
  · next h =>
      push_neg at h
      have hn : (0 : ℚ) < (n : ℚ) := by exact_mod_cast h.1
      have h1 : (0 : ℚ) ≤ (cap - res) / (n : ℚ) := div_nonneg (by linarith) hn.le
      have h2 : (0 : ℚ) ≤ (cap + res) * mf := mul_nonneg (by linarith) hmf
      simpa using add_nonneg h1 h2

/-- Witness for lease_payment_nonneg at the 30000/18000/0.001/36 lease of
the test suite. -/
theorem lease_payment_nonneg_app : 0 ≤ lease_payment_from_mf 30000 18000 (1/1000) 36 :=
  lease_payment_nonneg 30000 18000 (1/1000) 36
    (by norm_num) (by norm_num) (by norm_num) (by norm_num)

/-- Helper: closed form of remaining_loan_balance in the zero-rate
branch. -/
theorem remaining_balance_zero_rate (L apr : ℚ) (n me : ℤ)
    (hn : 0 < n) (hL : 0 < L) (hr : apr / 100 / 12 = 0) :
    remaining_loan_balance L apr n me =
      max 0 (L - L / (n : ℚ) * ((max 0 (min me n) : ℤ) : ℚ)) := by
  have hcond : ¬(n ≤ 0 ∨ L ≤ 0) := by push_neg; exact ⟨hn, hL⟩
  simp [remaining_loan_balance, monthly_loan_payment, hcond, hr]

/-- Helper: closed form of remaining_loan_balance in the positive-rate
branch, with the payment left symbolic. -/
theorem remaining_balance_pos_rate (L apr : ℚ) (n me : ℤ)
    (hn : 0 < n) (hL : 0 < L) (hr : apr / 100 / 12 ≠ 0) :
    remaining_loan_balance L apr n me =
      max 0 (L * (1 + apr / 100 / 12) ^ (max 0 (min me n)).toNat -
        monthly_loan_payment L apr n *
          ((1 + apr / 100 / 12) ^ (max 0 (min me n)).toNat - 1) / (apr / 100 / 12)) := by
  have hcond : ¬(n ≤ 0 ∨ L ≤ 0) := by push_neg; exact ⟨hn, hL⟩
  simp [remaining_loan_balance, hcond, hr]

/-- Helper: closed form of monthly_loan_payment in the positive-rate
branch. -/
theorem monthly_payment_pos_rate (L apr : ℚ) (n : ℤ)
    (hn : 0 < n) (hL : 0 < L) (hr : apr / 100 / 12 ≠ 0) :
    monthly_loan_payment L apr n =
      L * ((apr / 100 / 12) * (1 + apr / 100 / 12) ^ n.toNat) /
        ((1 + apr / 100 / 12) ^ n.toNat - 1) := by
  have hcond : ¬(n ≤ 0 ∨ L ≤ 0) := by push_neg; exact ⟨hn, hL⟩
  simp [monthly_loan_payment, hcond, hr]

/-- Helper: the unfloored balance expression with the annuity payment
substituted is antitone in the number of elapsed months. -/
theorem balance_term_antitone (L r : ℚ) (N a b : ℕ)
    (hL : 0 ≤ L) (hr : 0 < r) (hN : N ≠ 0) (hab : a ≤ b) :
    L * (1 + r) ^ b -
      L * (r * (1 + r) ^ N) / ((1 + r) ^ N - 1) * ((1 + r) ^ b - 1) / r ≤
    L * (1 + r) ^ a -
      L * (r * (1 + r) ^ N) / ((1 + r) ^ N - 1) * ((1 + r) ^ a - 1) / r := by
  have hq : (1 : ℚ) < 1 + r := by linarith
  have hA : (1 : ℚ) < (1 + r) ^ N := one_lt_pow₀ hq hN
  have hA1 : (0 : ℚ) < (1 + r) ^ N - 1 := by linarith
  have hpow : (1 + r) ^ a ≤ (1 + r) ^ b := pow_le_pow_right₀ hq.le hab
  have hrne : r ≠ 0 := hr.ne'
  have hA1ne : (1 + r) ^ N - 1 ≠ 0 := hA1.ne'
  have hdiff :
      (L * (1 + r) ^ a -
        L * (r * (1 + r) ^ N) / ((1 + r) ^ N - 1) * ((1 + r) ^ a - 1) / r) -
      (L * (1 + r) ^ b -
        L * (r * (1 + r) ^ N) / ((1 + r) ^ N - 1) * ((1 + r) ^ b - 1) / r) =
      ((1 + r) ^ b - (1 + r) ^ a) * (L / ((1 + r) ^ N - 1)) := by
    field_simp
    ring
  have hnn : 0 ≤ ((1 + r) ^ b - (1 + r) ^ a) * (L / ((1 + r) ^ N - 1)) :=
    mul_nonneg (by linarith) (div_nonneg hL hA1.le)
  linarith

/-- C4: for fixed nonnegative loan amount, nonnegative annual rate and
positive term, remaining_loan_balance is monotonically non-increasing in
the number of elapsed months. -/
theorem remaining_balance_antitone (L apr : ℚ) (n k1 k2 : ℤ)
    (hL : 0 ≤ L) (hapr : 0 ≤ apr) (hn : 0 < n) (hk : k1 ≤ k2) :
    remaining_loan_balance L apr n k2 ≤ remaining_loan_balance L apr n k1 := by
  rcases hL.eq_or_lt with hL0 | hLpos
  · simp [remaining_loan_balance, ← hL0]
  · have hc : max 0 (min k1 n) ≤ max 0 (min k2 n) := by omega
    by_cases hr : apr / 100 / 12 = 0
    · rw [remaining_balance_zero_rate L apr n k1 hn hLpos hr,
        remaining_balance_zero_rate L apr n k2 hn hLpos hr]
      have hpn : (0 : ℚ) ≤ L / (n : ℚ) := by
        apply div_nonneg hLpos.le
        exact_mod_cast hn.le
      have hcast : ((max 0 (min k1 n) : ℤ) : ℚ) ≤ ((max 0 (min k2 n) : ℤ) : ℚ) := by
        exact_mod_cast hc
      have hmul := mul_le_mul_of_nonneg_left hcast hpn
      exact max_le_max le_rfl (by linarith)
    · have hrpos : 0 < apr / 100 / 12 := lt_of_le_of_ne (by positivity) (Ne.symm hr)
      rw [remaining_balance_pos_rate L apr n k1 hn hLpos hr,
        remaining_balance_pos_rate L apr n k2 hn hLpos hr,
        monthly_payment_pos_rate L apr n hn hLpos hr]
      have hN : n.toNat ≠ 0 := by omega
      have hab : (max 0 (min k1 n)).toNat ≤ (max 0 (min k2 n)).toNat := by omega
      exact max_le_max le_rfl
        (balance_term_antitone L (apr / 100 / 12) n.toNat _ _ hLpos.le hrpos hN hab)

/-- Witness for remaining_balance_antitone on a 100 unit, two-month loan
at a 100 percent monthly rate. -/
theorem remaining_balance_antitone_app :
    remaining_loan_balance 100 1200 2 1 ≤ remaining_loan_balance 100 1200 2 0 :=
  remaining_balance_antitone 100 1200 2 0 1
    (by norm_num) (by norm_num) (by norm_num) (by norm_num)

end LeaseVsBuy
